import Mathlib

/-!
# Verification of the `manuskript-exporter` orchestration shell

Shallow embedding of `src/mskexporter/mskexporter.pyw` (class `MainTk`).
The tkinter widgets are modelled by explicit record fields (status-bar
text/colour, path-bar text, menu entry states); the file system, the file
dialog and the two external collaborators (`mskmd`, `pypandoc`) are modelled
by an environment record of functions, since their behaviour is outside this
repository.  All operations of the class become pure state transformers.
-/

/-- Widget colours used by the program: `red`/`green`/`white`/`black` are the
literal colour strings in the source; `defaultBg` stands for
`self.root.cget('background')`, the root window's default background. -/
inductive Color where
  | defaultBg
  | red
  | green
  | white
  | black
deriving DecidableEq

/-- Configuration of a `tk.Label` as far as the program touches it:
`config(text=...)`, `config(bg=...)`, `config(fg=...)`. -/
structure BarConfig where
  text : String
  bg : Color
  fg : Color
deriving DecidableEq

/-- The mutable state of a `MainTk` instance.

Fields mirror the instance attributes of the class:
`prjDir`, `prjName` (set only inside `open_project`), `_statusText`
(`statusText`), `infoHowText`, `_pathText` (`pathText`), the status bar and
path bar labels, the `state=` of the `Close` and `Convert` menu entries, the
`outputType` IntVar, the window title and the constructor's `title` argument.
`reports` is ghost instrumentation: the sequence of messages passed to
`set_info_how`, recording every status report the program emits. -/
structure AppState where
  usePandoc : Bool
  prjDir : Option String
  prjName : Option String
  statusText : String
  infoHowText : String
  pathText : String
  title : String
  windowTitle : String
  statusBar : BarConfig
  pathBarText : String
  closeEnabled : Bool
  convertEnabled : Bool
  outputType : Nat
  reports : List String
deriving DecidableEq

/-- One attempted `pypandoc.convert_file` invocation:
`convert_file(input, toFormat, outputfile=outputfile, format='markdown-smart')`. -/
structure PandocCall where
  input : String
  toFormat : String
  outputfile : String
deriving DecidableEq

/-- The environment: file system predicates (`os.path.isfile`,
`os.path.isdir`), the result of `filedialog.askopenfilename` (`""` when the
user dismisses the dialog), the external converter `pypandoc.convert_file`
(arguments: input file, target format, output file; raises = `.error` with
the exception text), and the three `mskmd` generation calls (argument:
`self.prjDir`; each returns a list of written file paths or raises). -/
structure Env where
  isfile : String → Bool
  isdir : String → Bool
  dialog : String
  convertFile : String → String → String → Except String Unit
  mskConvertOutline : Option String → Except String (List String)
  mskConvertWorld : Option String → Except String (List String)
  mskConvertCharacters : Option String → Except String (List String)

/-- `OUTPUT_TYPES = ['md', 'odt', 'docx', 'html']`. -/
def OUTPUT_TYPES : List String := ["md", "odt", "docx", "html"]

/-- Python `s.startswith(c)` for a one-character argument `c`. -/
def pyStartsWithChar (c : Char) (s : String) : Bool :=
  s.toList.head? = some c

/-- Helper for `pySplit1`: accumulates the characters before the first
occurrence of `sep`. -/
def splitFirstAux (sep : Char) (acc : List Char) : List Char → List String
  | [] => [String.mk acc.reverse]
  | c :: cs =>
    if c = sep then [String.mk acc.reverse, String.mk cs]
    else splitFirstAux sep (c :: acc) cs

/-- Python `s.split(sep, maxsplit=1)`: split at the first occurrence of `sep`
only, yielding one or two pieces. -/
def pySplit1 (sep : Char) (s : String) : List String :=
  splitFirstAux sep [] s.toList

/-- Python `s.strip()` (for the ASCII whitespace the program can meet):
drop leading and trailing whitespace characters. -/
def pyStrip (s : String) : String :=
  String.mk
    (((s.toList.dropWhile Char.isWhitespace).reverse.dropWhile
      Char.isWhitespace).reverse)

/-- Helper for `pySplitAll`. -/
def pySplitAllAux (sep : Char) (acc : List Char) : List Char → List String
  | [] => [String.mk acc.reverse]
  | c :: cs =>
    if c = sep then String.mk acc.reverse :: pySplitAllAux sep [] cs
    else pySplitAllAux sep (c :: acc) cs

/-- Python `s.split(sep)` without a maxsplit bound. -/
def pySplitAll (sep : Char) (s : String) : List String :=
  pySplitAllAux sep [] s.toList

/-- Python `sep.join(parts)`. -/
def joinWith (sep : String) : List String → String
  | [] => ""
  | [x] => x
  | x :: y :: xs => x ++ sep ++ joinWith sep (y :: xs)

/-- Index of the last occurrence of `c` in `l` (Python `str.rfind`,
`none` for -1). -/
def rfindIdx (c : Char) (l : List Char) : Option Nat :=
  match l.reverse.findIdx? (· = c) with
  | none => none
  | some k => some (l.length - 1 - k)

/-- `os.path.split` (posixpath): split at the final slash; the head keeps a
run of leading slashes but drops other trailing slashes. -/
def ospathSplit (p : String) : String × String :=
  let cs := p.toList
  let i := match rfindIdx '/' cs with
    | none => 0
    | some j => j + 1
  let head := cs.take i
  let tail := cs.drop i
  let head :=
    if head ≠ [] ∧ ¬ head.all (· = '/') then
      (head.reverse.dropWhile (· = '/')).reverse
    else head
  (String.mk head, String.mk tail)

/-- `os.path.splitext` (posixpath): split off the extension at the last dot
of the final component, unless that component consists only of leading
dots up to there. -/
def ospathSplitext (p : String) : String × String :=
  let cs := p.toList
  let sepIndex : Int := match rfindIdx '/' cs with
    | none => -1
    | some j => (j : Int)
  let dotIndex : Int := match rfindIdx '.' cs with
    | none => -1
    | some j => (j : Int)
  if sepIndex < dotIndex then
    let start := (sepIndex + 1).toNat
    let body := (cs.drop start).take (dotIndex.toNat - start)
    if body.any (· ≠ '.') then
      (String.mk (cs.take dotIndex.toNat), String.mk (cs.drop dotIndex.toNat))
    else (p, "")
  else (p, "")

/-- `os.path.join` (posixpath) for two components. -/
def ospathJoin (a b : String) : String :=
  if pyStartsWithChar '/' b then b
  else if a = "" ∨ a.toList.getLast? = some '/' then a ++ b
  else a ++ "/" ++ b

/-- `os.path.normpath` (posixpath). -/
def ospathNormpath (p : String) : String :=
  if p = "" then "."
  else
    let cs := p.toList
    let initialSlashes : Nat :=
      if pyStartsWithChar '/' p then
        if cs.take 2 = ['/', '/'] ∧ ¬ cs.take 3 = ['/', '/', '/'] then 2 else 1
      else 0
    let comps := pySplitAll '/' p
    let newComps := comps.foldl (fun acc comp =>
      if comp = "" ∨ comp = "." then acc
      else if comp ≠ ".." ∨ (initialSlashes = 0 ∧ acc = [])
          ∨ (acc ≠ [] ∧ acc.getLast? = some "..") then acc ++ [comp]
      else if acc ≠ [] then acc.dropLast
      else acc) []
    let path := joinWith "/" newComps
    let path := String.mk (List.replicate initialSlashes '/') ++ path
    if path = "" then "." else path

/-- The `title` argument of the program's single `MainTk` instantiation. -/
def appTitle : String := "Manuskript to Markdown converter"

/-- The state right after `MainTk.__init__` (which calls
`_build_main_menu`, hence `disable_menu`): no project, empty texts,
`outputType` 0, `Close`/`Convert` disabled. -/
def initState : AppState where
  usePandoc := true
  prjDir := none
  prjName := none
  statusText := ""
  infoHowText := ""
  pathText := ""
  title := appTitle
  windowTitle := appTitle
  statusBar := { text := "", bg := Color.defaultBg, fg := Color.black }
  pathBarText := ""
  closeEnabled := false
  convertEnabled := false
  outputType := 0
  reports := []

/-- `MainTk.show_status`: store `message` as `_statusText` and render it
neutrally (default background, black foreground). -/
def show_status (message : String) (s : AppState) : AppState :=
  { s with
    statusText := message
    statusBar := { text := message, bg := Color.defaultBg, fg := Color.black } }

/-- `MainTk.show_path`: store `message` as `_pathText` and put it on the
path bar. -/
def show_path (message : String) (s : AppState) : AppState :=
  { s with pathText := message, pathBarText := message }

/-- `MainTk.restore_status`: overwrite an error message with the status
before (`show_status(self._statusText)`). -/
def restore_status (s : AppState) : AppState :=
  show_status s.statusText s

/-- `MainTk.set_info_how`: if `message` starts with `'!'`, render
`message.split('!', maxsplit=1)[1].strip()` in white on red; otherwise
render `message` in white on green.  The rendered text is stored as
`infoHowText`.  The ghost `reports` trace records the raw message. -/
def set_info_how (message : String) (s : AppState) : AppState :=
  if pyStartsWithChar '!' message then
    let t := pyStrip ((pySplit1 '!' message).getD 1 "")
    { s with
      statusBar := { text := t, bg := Color.red, fg := Color.white }
      infoHowText := t
      reports := s.reports ++ [message] }
  else
    { s with
      statusBar := { text := message, bg := Color.green, fg := Color.white }
      infoHowText := message
      reports := s.reports ++ [message] }

/-- `MainTk.disable_menu`: `Close` and `Convert` entries `state='disabled'`. -/
def disable_menu (s : AppState) : AppState :=
  { s with closeEnabled := false, convertEnabled := false }

/-- `MainTk.enable_menu`: `Close` and `Convert` entries `state='normal'`. -/
def enable_menu (s : AppState) : AppState :=
  { s with closeEnabled := true, convertEnabled := true }

/-- `MainTk.close_project`: clear `prjDir`, reset the window title, clear
status and path, disable the menu entries. -/
def close_project (s : AppState) : AppState :=
  disable_menu (show_path "" (show_status ""
    { s with prjDir := none, windowTitle := s.title }))

/-- `MainTk.select_project`: use the `fileName` argument when it names an
existing file, otherwise fall back to the file dialog (whose result,
possibly `""` on dismissal, is `env.dialog`); return `""` when nothing was
selected.  (The computation of the dialog's initial directory has no
observable effect beyond the dialog itself and is absorbed into
`env.dialog`.) -/
def select_project (env : Env) (fileName : String) : String :=
  let fileName :=
    if fileName = "" ∨ env.isfile fileName = false then env.dialog
    else fileName
  if fileName = "" then "" else fileName

/-- `MainTk.open_project`: restore the status, select a project file, close
a previously open project, derive the companion directory by stripping the
selected file's extension, and succeed iff that directory exists. -/
def open_project (env : Env) (s : AppState) (fileName : String) :
    Bool × AppState :=
  let s := restore_status s
  let fileName := select_project env fileName
  if fileName = "" then (false, s)
  else
    let s := if s.prjDir.isSome then close_project s else s
    let dirFile := ospathSplit fileName
    let nameExt := ospathSplitext dirFile.2
    let s := { s with prjName := some nameExt.1 }
    let prjDir := ospathJoin dirFile.1 nameExt.1
    let s := { s with prjDir := some prjDir }
    if env.isdir prjDir = false then
      (false, { s with prjDir := none, prjName := none })
    else
      let s := show_path (ospathNormpath prjDir) s
      (true, enable_menu s)

/-- Body of the loop in `MainTk.call_pandoc`: split the Markdown path into
directory and file, strip the extension, build the output path
`os.path.join(dir, f'{name}.{extension}')`, attempt the conversion and on
an exception report its text via `set_info_how`.  The attempted call is
recorded. -/
def pandocStep (env : Env) (extension : String)
    (acc : AppState × List PandocCall) (mdFile : String) :
    AppState × List PandocCall :=
  let dirFile := ospathSplit mdFile
  let nameExt := ospathSplitext dirFile.2
  let outfile := ospathJoin dirFile.1 (nameExt.1 ++ "." ++ extension)
  match env.convertFile mdFile extension outfile with
  | .ok _ =>
    (acc.1, acc.2 ++ [{ input := mdFile, toFormat := extension, outputfile := outfile }])
  | .error ex =>
    (set_info_how ex acc.1,
     acc.2 ++ [{ input := mdFile, toFormat := extension, outputfile := outfile }])

/-- `MainTk.call_pandoc`: when the selected output index is positive, run
the conversion loop over `fileList` with
`extension = OUTPUT_TYPES[outputIndex]`; otherwise do nothing.  Returns the
final state and the list of attempted external calls. -/
def call_pandoc (env : Env) (s : AppState) (fileList : List String) :
    AppState × List PandocCall :=
  let outputIndex := s.outputType
  if outputIndex > 0 then
    let extension := OUTPUT_TYPES.getD outputIndex ""
    fileList.foldl (pandocStep env extension) (s, [])
  else (s, [])

/-- `MainTk.convert_outline`: call `mskmd.convert_outline(self.prjDir)`; on
an exception report `'!' + str(ex)`, otherwise report the success message
and forward the file list to `call_pandoc`. -/
def convert_outline (env : Env) (s : AppState) : AppState × List PandocCall :=
  match env.mskConvertOutline s.prjDir with
  | .error ex => (set_info_how ("!" ++ ex) s, [])
  | .ok fileList =>
    call_pandoc env (set_info_how "Outline documents written." s) fileList

/-- `MainTk.convert_world`: like `convert_outline` for the story world. -/
def convert_world (env : Env) (s : AppState) : AppState × List PandocCall :=
  match env.mskConvertWorld s.prjDir with
  | .error ex => (set_info_how ("!" ++ ex) s, [])
  | .ok fileList =>
    call_pandoc env (set_info_how "Story world document written." s) fileList

/-- `MainTk.convert_characters`: like `convert_outline` for the character
sheets. -/
def convert_characters (env : Env) (s : AppState) : AppState × List PandocCall :=
  match env.mskConvertCharacters s.prjDir with
  | .error ex => (set_info_how ("!" ++ ex) s, [])
  | .ok fileList =>
    call_pandoc env (set_info_how "Character sheets document written." s) fileList

/-- The three `Convert` menu categories. -/
inductive Category where
  | outline
  | world
  | characters
deriving DecidableEq

/-- The dispatcher handler bound to a `Convert` menu entry. -/
def dispatch : Category → Env → AppState → AppState × List PandocCall
  | .outline => convert_outline
  | .world => convert_world
  | .characters => convert_characters

/-- The `mskmd` generation call a category uses. -/
def mskCall : Category → Env → Option String → Except String (List String)
  | .outline => Env.mskConvertOutline
  | .world => Env.mskConvertWorld
  | .characters => Env.mskConvertCharacters

/-- The user-triggerable events of a session: opening (menu entry or
Ctrl-O, with the file-system/dialog environment at that moment), closing,
the three conversions, status restore (Esc or status-bar click), and the
output-type radio buttons. -/
inductive Event where
  | evOpen (env : Env) (fileName : String)
  | evClose
  | evConvert (c : Category) (env : Env)
  | evRestore
  | evSelectOutput (i : Nat)

/-- One event step of the session. -/
def step (s : AppState) : Event → AppState
  | .evOpen env fileName => (open_project env s fileName).2
  | .evClose => close_project s
  | .evConvert c env => (dispatch c env s).1
  | .evRestore => restore_status s
  | .evSelectOutput i => { s with outputType := i }

/-- A session run: fold the events over the initial state. -/
def run (s : AppState) (es : List Event) : AppState :=
  es.foldl step s

/-- The menu-state invariant: `Close` and `Convert` are enabled iff a
project is open. -/
def menuInv (s : AppState) : Prop :=
  s.closeEnabled = s.prjDir.isSome ∧ s.convertEnabled = s.prjDir.isSome

/-- The companion directory of a selected project file: the same directory,
with the file's extension stripped. -/
def companionDir (fileName : String) : String :=
  ospathJoin (ospathSplit fileName).1 (ospathSplitext (ospathSplit fileName).2).1

/-- The external call `call_pandoc` attempts for `mdFile` under target
format `extension`: output path = same directory, same base name, the
target extension appended. -/
def pandocCallFor (extension : String) (mdFile : String) : PandocCall :=
  { input := mdFile
    toFormat := extension
    outputfile := ospathJoin (ospathSplit mdFile).1
      ((ospathSplitext (ospathSplit mdFile).2).1 ++ "." ++ extension) }

/-- The per-file failure messages `call_pandoc` encounters over a batch, in
order. -/
def pandocFailures (env : Env) (extension : String)
    (fileList : List String) : List String :=
  fileList.filterMap (fun mdFile =>
    match env.convertFile mdFile extension
        (pandocCallFor extension mdFile).outputfile with
    | .ok _ => none
    | .error ex => some ex)


/-! ## Concrete test environments -/

/-- A test environment in which every path exists and every external call
succeeds; the dialog would yield `"q.msk"`. -/
def envAll : Env where
  isfile := fun _ => true
  isdir := fun _ => true
  dialog := "q.msk"
  convertFile := fun _ _ _ => .ok ()
  mskConvertOutline := fun _ => .ok []
  mskConvertWorld := fun _ => .ok []
  mskConvertCharacters := fun _ => .ok []

/-- A test environment in which no path exists, the dialog is dismissed
(`""`), every pandoc conversion raises `"boom"` and every generation call
raises `"gen failed"`. -/
def envFail : Env where
  isfile := fun _ => false
  isdir := fun _ => false
  dialog := ""
  convertFile := fun _ _ _ => .error "boom"
  mskConvertOutline := fun _ => .error "gen failed"
  mskConvertWorld := fun _ => .error "gen failed"
  mskConvertCharacters := fun _ => .error "gen failed"

/-- A test environment in which descriptor files exist but no companion
directory does. -/
def envNoDir : Env where
  isfile := fun _ => true
  isdir := fun _ => false
  dialog := "q.msk"
  convertFile := fun _ _ _ => .ok ()
  mskConvertOutline := fun _ => .ok []
  mskConvertWorld := fun _ => .ok []
  mskConvertCharacters := fun _ => .ok []

/-! ## Basic lemmas about the state operations -/

theorem set_info_how_reports (m : String) (s : AppState) :
    (set_info_how m s).reports = s.reports ++ [m] := by
  unfold set_info_how; split <;> rfl

theorem set_info_how_closeEnabled (m : String) (s : AppState) :
    (set_info_how m s).closeEnabled = s.closeEnabled := by
  unfold set_info_how; split <;> rfl

theorem set_info_how_convertEnabled (m : String) (s : AppState) :
    (set_info_how m s).convertEnabled = s.convertEnabled := by
  unfold set_info_how; split <;> rfl

theorem set_info_how_prjDir (m : String) (s : AppState) :
    (set_info_how m s).prjDir = s.prjDir := by
  unfold set_info_how; split <;> rfl

theorem set_info_how_statusText (m : String) (s : AppState) :
    (set_info_how m s).statusText = s.statusText := by
  unfold set_info_how; split <;> rfl

theorem pyStartsWithChar_bang_append (ex : String) :
    pyStartsWithChar '!' ("!" ++ ex) = true := rfl

theorem pySplit1_getD_of_head (c : Char) (m : String)
    (h : pyStartsWithChar c m = true) :
    (pySplit1 c m).getD 1 "" = String.mk (m.toList.drop 1) := by
  unfold pyStartsWithChar at h
  unfold pySplit1
  cases hm : m.toList with
  | nil => rw [hm] at h; simp at h
  | cons a l =>
    rw [hm] at h
    simp only [List.head?, decide_eq_true_eq, Option.some.injEq] at h
    simp [splitFirstAux, h]

theorem set_info_how_error (m : String) (s : AppState)
    (h : pyStartsWithChar '!' m = true) :
    set_info_how m s =
      { s with
        statusBar := { text := pyStrip (String.mk (m.toList.drop 1)),
                       bg := Color.red, fg := Color.white }
        infoHowText := pyStrip (String.mk (m.toList.drop 1))
        reports := s.reports ++ [m] } := by
  unfold set_info_how
  rw [if_pos h, pySplit1_getD_of_head '!' m h]

theorem set_info_how_plain (m : String) (s : AppState)
    (h : pyStartsWithChar '!' m = false) :
    set_info_how m s =
      { s with
        statusBar := { text := m, bg := Color.green, fg := Color.white }
        infoHowText := m
        reports := s.reports ++ [m] } := by
  unfold set_info_how
  rw [if_neg (by simp [h])]

/-! ## Lemmas about the pandoc conversion loop -/

theorem pandocStep_eq (env : Env) (extension : String)
    (acc : AppState × List PandocCall) (mdFile : String) :
    pandocStep env extension acc mdFile =
      match env.convertFile mdFile extension
          (pandocCallFor extension mdFile).outputfile with
      | .ok _ => (acc.1, acc.2 ++ [pandocCallFor extension mdFile])
      | .error ex => (set_info_how ex acc.1,
          acc.2 ++ [pandocCallFor extension mdFile]) := rfl

theorem pandocFoldl_spec (env : Env) (extension : String) :
    ∀ (l : List String) (p : AppState × List PandocCall),
      (l.foldl (pandocStep env extension) p).2
          = p.2 ++ l.map (pandocCallFor extension) ∧
      (l.foldl (pandocStep env extension) p).1.reports
          = p.1.reports ++ pandocFailures env extension l ∧
      (l.foldl (pandocStep env extension) p).1.closeEnabled
          = p.1.closeEnabled ∧
      (l.foldl (pandocStep env extension) p).1.convertEnabled
          = p.1.convertEnabled ∧
      (l.foldl (pandocStep env extension) p).1.prjDir = p.1.prjDir := by
  intro l
  induction l with
  | nil => intro p; simp [pandocFailures]
  | cons f l ih =>
    intro p
    rw [List.foldl_cons, pandocStep_eq]
    cases hc : env.convertFile f extension
        (pandocCallFor extension f).outputfile with
    | ok u =>
      have h := ih (p.1, p.2 ++ [pandocCallFor extension f])
      simp only [] at h
      refine ⟨?_, ?_, h.2.2.1, h.2.2.2.1, h.2.2.2.2⟩
      · rw [h.1]; simp
      · rw [h.2.1]; simp [pandocFailures, List.filterMap_cons, hc]
    | error ex =>
      have h := ih (set_info_how ex p.1, p.2 ++ [pandocCallFor extension f])
      simp only [] at h
      refine ⟨?_, ?_, ?_, ?_, ?_⟩
      · rw [h.1]; simp
      · rw [h.2.1, set_info_how_reports]
        simp [pandocFailures, List.filterMap_cons, hc]
      · rw [h.2.2.1, set_info_how_closeEnabled]
      · rw [h.2.2.2.1, set_info_how_convertEnabled]
      · rw [h.2.2.2.2, set_info_how_prjDir]

/-! ## Case analysis of `open_project` -/

theorem open_project_empty (env : Env) (s : AppState) (fn : String)
    (h : select_project env fn = "") :
    open_project env s fn = (false, restore_status s) := by
  simp only [open_project, h, if_pos]

theorem open_project_fail (env : Env) (s : AppState) (fn : String)
    (hsel : select_project env fn ≠ "")
    (hdir : env.isdir (companionDir (select_project env fn)) = false) :
    open_project env s fn =
      (false,
        { (if s.prjDir.isSome then close_project (restore_status s)
            else restore_status s) with
          prjName := none, prjDir := none }) := by
  have hdir' : env.isdir
      (ospathJoin (ospathSplit (select_project env fn)).1
        (ospathSplitext (ospathSplit (select_project env fn)).2).1) = false := by
    simpa [companionDir] using hdir
  by_cases hp : s.prjDir.isSome
  · simp only [open_project, restore_status, show_status]
    rw [if_neg hsel]
    simp [hp, hdir', close_project, disable_menu, show_path, show_status]
  · simp only [open_project, restore_status, show_status]
    rw [if_neg hsel]
    simp [hp, hdir', close_project, disable_menu, show_path, show_status]

theorem open_project_success (env : Env) (s : AppState) (fn : String)
    (hsel : select_project env fn ≠ "")
    (hdir : env.isdir (companionDir (select_project env fn)) = true) :
    open_project env s fn =
      (true,
        enable_menu (show_path
          (ospathNormpath (companionDir (select_project env fn)))
          { (if s.prjDir.isSome then close_project (restore_status s)
              else restore_status s) with
            prjName :=
              some (ospathSplitext (ospathSplit (select_project env fn)).2).1,
            prjDir := some (companionDir (select_project env fn)) })) := by
  have hdir' : env.isdir
      (ospathJoin (ospathSplit (select_project env fn)).1
        (ospathSplitext (ospathSplit (select_project env fn)).2).1) = true := by
    simpa [companionDir] using hdir
  by_cases hp : s.prjDir.isSome
  · simp only [open_project, restore_status, show_status]
    rw [if_neg hsel]
    simp [hp, hdir', companionDir, close_project, disable_menu, show_path,
      show_status, enable_menu]
  · simp only [open_project, restore_status, show_status]
    rw [if_neg hsel]
    simp [hp, hdir', companionDir, close_project, disable_menu, show_path,
      show_status, enable_menu]

/-! ## The menu-state invariant -/

theorem menuInv_initState : menuInv initState := by
  constructor <;> rfl

theorem menuInv_close (s : AppState) : menuInv (close_project s) := by
  constructor <;> rfl

theorem menuInv_restore (s : AppState) (h : menuInv s) :
    menuInv (restore_status s) := h

theorem menuInv_open (env : Env) (s : AppState) (fn : String)
    (h : menuInv s) : menuInv (open_project env s fn).2 := by
  by_cases hsel : select_project env fn = ""
  · rw [open_project_empty env s fn hsel]
    exact h
  · by_cases hdir : env.isdir (companionDir (select_project env fn)) = true
    · rw [open_project_success env s fn hsel hdir]
      constructor <;> rfl
    · have hdir' : env.isdir (companionDir (select_project env fn)) = false := by
        simpa using hdir
      rw [open_project_fail env s fn hsel hdir']
      by_cases hp : s.prjDir.isSome
      · simp [menuInv, hp, close_project, disable_menu, show_path, show_status]
      · have hp' : s.prjDir.isSome = false := by simpa using hp
        simp [menuInv, hp', restore_status, show_status]
        exact ⟨h.1.trans hp', h.2.trans hp'⟩

theorem call_pandoc_frame (env : Env) (s : AppState) (fileList : List String) :
    (call_pandoc env s fileList).1.closeEnabled = s.closeEnabled ∧
    (call_pandoc env s fileList).1.convertEnabled = s.convertEnabled ∧
    (call_pandoc env s fileList).1.prjDir = s.prjDir := by
  simp only [call_pandoc]
  split
  · have h := pandocFoldl_spec env (OUTPUT_TYPES.getD s.outputType "")
      fileList (s, [])
    exact ⟨h.2.2.1, h.2.2.2.1, h.2.2.2.2⟩
  · exact ⟨rfl, rfl, rfl⟩

theorem dispatch_frame (c : Category) (env : Env) (s : AppState) :
    (dispatch c env s).1.closeEnabled = s.closeEnabled ∧
    (dispatch c env s).1.convertEnabled = s.convertEnabled ∧
    (dispatch c env s).1.prjDir = s.prjDir := by
  cases c
  case outline =>
    simp only [dispatch]
    unfold convert_outline
    cases h : env.mskConvertOutline s.prjDir with
    | error ex =>
      exact ⟨set_info_how_closeEnabled _ _, set_info_how_convertEnabled _ _,
        set_info_how_prjDir _ _⟩
    | ok fileList =>
      have hcp := call_pandoc_frame env
        (set_info_how "Outline documents written." s) fileList
      refine ⟨?_, ?_, ?_⟩
      · rw [hcp.1, set_info_how_closeEnabled]
      · rw [hcp.2.1, set_info_how_convertEnabled]
      · rw [hcp.2.2, set_info_how_prjDir]
  case world =>
    simp only [dispatch]
    unfold convert_world
    cases h : env.mskConvertWorld s.prjDir with
    | error ex =>
      exact ⟨set_info_how_closeEnabled _ _, set_info_how_convertEnabled _ _,
        set_info_how_prjDir _ _⟩
    | ok fileList =>
      have hcp := call_pandoc_frame env
        (set_info_how "Story world document written." s) fileList
      refine ⟨?_, ?_, ?_⟩
      · rw [hcp.1, set_info_how_closeEnabled]
      · rw [hcp.2.1, set_info_how_convertEnabled]
      · rw [hcp.2.2, set_info_how_prjDir]
  case characters =>
    simp only [dispatch]
    unfold convert_characters
    cases h : env.mskConvertCharacters s.prjDir with
    | error ex =>
      exact ⟨set_info_how_closeEnabled _ _, set_info_how_convertEnabled _ _,
        set_info_how_prjDir _ _⟩
    | ok fileList =>
      have hcp := call_pandoc_frame env
        (set_info_how "Character sheets document written." s) fileList
      refine ⟨?_, ?_, ?_⟩
      · rw [hcp.1, set_info_how_closeEnabled]
      · rw [hcp.2.1, set_info_how_convertEnabled]
      · rw [hcp.2.2, set_info_how_prjDir]

theorem menuInv_step (s : AppState) (e : Event) (h : menuInv s) :
    menuInv (step s e) := by
  cases e with
  | evOpen env fn => exact menuInv_open env s fn h
  | evClose => exact menuInv_close s
  | evConvert c env =>
    have hf := dispatch_frame c env s
    simp only [step]
    constructor
    · rw [hf.1, hf.2.2]; exact h.1
    · rw [hf.2.1, hf.2.2]; exact h.2
  | evRestore => exact menuInv_restore s h
  | evSelectOutput i => exact h

theorem menuInv_run (s : AppState) (h : menuInv s) :
    ∀ es : List Event, menuInv (run s es) := by
  intro es
  induction es generalizing s with
  | nil => exact h
  | cons e es ih =>
    rw [run, List.foldl_cons]
    exact ih (step s e) (menuInv_step s e h)

/-! ## Claim C1 -/

/-- C1: for every project selection that yields a file path, `open_project`
succeeds (returns `true`, with `prjDir` set to the companion directory
obtained by stripping the selected file's extension) iff that directory
exists, and otherwise returns `false` with an empty resolution
(`prjDir = none`) — regardless of whether the descriptor file itself
exists, since `env.isfile` is arbitrary. -/
theorem C1_open_project_resolution (env : Env) (s : AppState) (fn : String)
    (hsel : select_project env fn ≠ "") :
    ((open_project env s fn).1 = true ↔
      env.isdir (companionDir (select_project env fn)) = true) ∧
    ((open_project env s fn).1 = true →
      (open_project env s fn).2.prjDir
        = some (companionDir (select_project env fn))) ∧
    ((open_project env s fn).1 = false →
      (open_project env s fn).2.prjDir = none) := by
  by_cases hdir : env.isdir (companionDir (select_project env fn)) = true
  · rw [open_project_success env s fn hsel hdir]
    simp [hdir, enable_menu, show_path]
  · have hdir' : env.isdir (companionDir (select_project env fn)) = false := by
      simpa using hdir
    rw [open_project_fail env s fn hsel hdir']
    simp [hdir']

/-- Witness for C1 at a concrete environment and input. -/
theorem C1_witness :
    ((open_project envAll initState "/x/p.msk").1 = true ↔
      envAll.isdir (companionDir (select_project envAll "/x/p.msk")) = true) ∧
    ((open_project envAll initState "/x/p.msk").1 = true →
      (open_project envAll initState "/x/p.msk").2.prjDir
        = some (companionDir (select_project envAll "/x/p.msk"))) ∧
    ((open_project envAll initState "/x/p.msk").1 = false →
      (open_project envAll initState "/x/p.msk").2.prjDir = none) :=
  C1_open_project_resolution envAll initState "/x/p.msk" (by decide)

/-! ## Claim C2 -/

/-- C2 counterexample: for `m = "!boom "` the text with the marker stripped
is `"boom "`, but `set_info_how` stores `"boom"` — the code additionally
strips surrounding whitespace (`.split('!', maxsplit=1)[1].strip()`), so it
does not store "exactly m with the marker stripped". -/
theorem C2_counterexample :
    String.mk (("!boom ").toList.drop 1) = "boom " ∧
    (set_info_how "!boom " initState).infoHowText = "boom" ∧
    (set_info_how "!boom " initState).infoHowText
      ≠ String.mk (("!boom ").toList.drop 1) := by
  refine ⟨by decide, by decide, by decide⟩

/-- C2 amended: for every message starting with the error marker `'!'`,
`set_info_how` applies error styling (white on red) and stores as the
how-text the marker-stripped text with surrounding whitespace removed
(so `report('!boom')` stores `'boom'`); the stored status text is
untouched, and a subsequent `restore_status` re-renders that previously
stored status text with neutral styling. -/
theorem C2_error_marker (m : String) (s : AppState)
    (h : pyStartsWithChar '!' m = true) :
    (set_info_how m s).statusBar.bg = Color.red ∧
    (set_info_how m s).statusBar.fg = Color.white ∧
    (set_info_how m s).infoHowText = pyStrip (String.mk (m.toList.drop 1)) ∧
    (set_info_how m s).statusBar.text = (set_info_how m s).infoHowText ∧
    (set_info_how m s).statusText = s.statusText ∧
    (restore_status (set_info_how m s)).statusBar
      = { text := s.statusText, bg := Color.defaultBg, fg := Color.black } := by
  rw [set_info_how_error m s h]
  simp [restore_status, show_status]

/-- Witness for C2 at `m = "!boom"`. -/
theorem C2_witness :
    (set_info_how "!boom" initState).statusBar.bg = Color.red ∧
    (set_info_how "!boom" initState).statusBar.fg = Color.white ∧
    (set_info_how "!boom" initState).infoHowText
      = pyStrip (String.mk (("!boom").toList.drop 1)) ∧
    (set_info_how "!boom" initState).statusBar.text
      = (set_info_how "!boom" initState).infoHowText ∧
    (set_info_how "!boom" initState).statusText = initState.statusText ∧
    (restore_status (set_info_how "!boom" initState)).statusBar
      = { text := initState.statusText, bg := Color.defaultBg,
          fg := Color.black } :=
  C2_error_marker "!boom" initState (by decide)

/-! ## Claim C3 -/

/-- C3: for every conversion category, if the external generation call
raises, the dispatcher forwards zero files to the converter (no pandoc
call is attempted), reports exactly the error message prefixed with the
`'!'` marker (rendered with error styling), and leaves the menu state
unchanged. -/
theorem C3_generation_failure (c : Category) (env : Env) (s : AppState)
    (ex : String) (h : mskCall c env s.prjDir = .error ex) :
    (dispatch c env s).2 = [] ∧
    (dispatch c env s).1.reports = s.reports ++ ["!" ++ ex] ∧
    (dispatch c env s).1.statusBar.bg = Color.red ∧
    (dispatch c env s).1.closeEnabled = s.closeEnabled ∧
    (dispatch c env s).1.convertEnabled = s.convertEnabled := by
  have hbg : ∀ t : AppState, (set_info_how ("!" ++ ex) t).statusBar.bg
      = Color.red := by
    intro t
    rw [set_info_how_error ("!" ++ ex) t (pyStartsWithChar_bang_append ex)]
  cases c
  case outline =>
    simp only [mskCall] at h
    simp only [dispatch]
    unfold convert_outline
    rw [h]
    exact ⟨rfl, set_info_how_reports _ _, hbg s,
      set_info_how_closeEnabled _ _, set_info_how_convertEnabled _ _⟩
  case world =>
    simp only [mskCall] at h
    simp only [dispatch]
    unfold convert_world
    rw [h]
    exact ⟨rfl, set_info_how_reports _ _, hbg s,
      set_info_how_closeEnabled _ _, set_info_how_convertEnabled _ _⟩
  case characters =>
    simp only [mskCall] at h
    simp only [dispatch]
    unfold convert_characters
    rw [h]
    exact ⟨rfl, set_info_how_reports _ _, hbg s,
      set_info_how_closeEnabled _ _, set_info_how_convertEnabled _ _⟩

/-- Witness for C3 at the outline category in a failing environment. -/
theorem C3_witness :
    (dispatch Category.outline envFail initState).2 = [] ∧
    (dispatch Category.outline envFail initState).1.reports
      = initState.reports ++ ["!" ++ "gen failed"] ∧
    (dispatch Category.outline envFail initState).1.statusBar.bg
      = Color.red ∧
    (dispatch Category.outline envFail initState).1.closeEnabled
      = initState.closeEnabled ∧
    (dispatch Category.outline envFail initState).1.convertEnabled
      = initState.convertEnabled :=
  C3_generation_failure Category.outline envFail initState "gen failed" rfl

/-! ## Claim C4 -/

/-- C4 counterexample: a per-file conversion failure (message `"boom"`) is
reported via `set_info_how(str(ex))` with no `'!'` marker, so it is
rendered with the success styling (green), not the error styling (red):
the claim's "reported ... as an error" fails. -/
theorem C4_counterexample :
    pandocFailures envFail "odt" ["/x/a.md"] = ["boom"] ∧
    (call_pandoc envFail { initState with outputType := 1 }
      ["/x/a.md"]).1.reports = ["boom"] ∧
    (call_pandoc envFail { initState with outputType := 1 }
      ["/x/a.md"]).1.statusBar.bg = Color.green ∧
    (call_pandoc envFail { initState with outputType := 1 }
      ["/x/a.md"]).1.statusBar.bg ≠ Color.red := by
  refine ⟨by decide, by decide, by decide, by decide⟩

/-- C4 amended: in `call_pandoc`, for every file list, a conversion failure
on any one file is reported via the Status Reporter (the raw exception
text, without the error marker, hence with success styling) and does not
prevent the conversion of any subsequent file from being attempted: all N
files in the batch are attempted regardless of earlier failures, and every
failure is reported in order. -/
theorem C4_batch_continues (env : Env) (s : AppState)
    (fileList : List String) (h : s.outputType > 0) :
    (call_pandoc env s fileList).2.length = fileList.length ∧
    (call_pandoc env s fileList).1.reports =
      s.reports ++
        pandocFailures env (OUTPUT_TYPES.getD s.outputType "") fileList := by
  have hh := pandocFoldl_spec env (OUTPUT_TYPES.getD s.outputType "")
    fileList (s, [])
  simp only [call_pandoc]
  rw [if_pos h]
  constructor
  · rw [hh.1]
    simp
  · exact hh.2.1

/-- Witness for C4 in an environment where every conversion fails. -/
theorem C4_witness :
    (call_pandoc envFail { initState with outputType := 1 }
      ["/x/a.md", "/x/b.md"]).2.length = ["/x/a.md", "/x/b.md"].length ∧
    (call_pandoc envFail { initState with outputType := 1 }
      ["/x/a.md", "/x/b.md"]).1.reports =
      { initState with outputType := 1 }.reports ++
        pandocFailures envFail
          (OUTPUT_TYPES.getD { initState with outputType := 1 }.outputType "")
          ["/x/a.md", "/x/b.md"] :=
  C4_batch_continues envFail { initState with outputType := 1 }
    ["/x/a.md", "/x/b.md"] (by decide)

/-! ## Claim C5 -/

/-- C5: for every file list, when the selected output format index is 0
(the source format `'md'`), `call_pandoc` makes zero external conversion
calls and leaves the state untouched; conversely the external converter is
invoked only when the selected output format is not the source format. -/
theorem C5_source_format_noop (env : Env) (s : AppState)
    (fileList : List String) :
    (s.outputType = 0 → call_pandoc env s fileList = (s, [])) ∧
    ((call_pandoc env s fileList).2 ≠ [] → s.outputType ≠ 0) := by
  have h0 : s.outputType = 0 → call_pandoc env s fileList = (s, []) := by
    intro h
    simp only [call_pandoc]
    rw [h]
    simp
  refine ⟨h0, ?_⟩
  intro hne h
  exact hne (by rw [h0 h])

/-- Witness for C5: index 0 yields no calls; a nonempty call list forces a
nonzero index. -/
theorem C5_witness :
    call_pandoc envAll initState ["/x/a.md"] = (initState, []) ∧
    ({ initState with outputType := 1 } : AppState).outputType ≠ 0 :=
  ⟨(C5_source_format_noop envAll initState ["/x/a.md"]).1 rfl,
   (C5_source_format_noop envAll { initState with outputType := 1 }
      ["/x/a.md"]).2 (by decide)⟩

/-! ## Claim C9 -/

/-- C9: for every Markdown input path in the batch and every non-source
target format, `call_pandoc` attempts exactly one conversion per input, in
order, whose output path is the same directory and the same base name with
the target format's extension appended
(`os.path.join(dir, f'{name}.{extension}')`). -/
theorem C9_output_paths (env : Env) (s : AppState) (fileList : List String)
    (h0 : s.outputType > 0) (h4 : s.outputType < OUTPUT_TYPES.length) :
    (call_pandoc env s fileList).2 =
      fileList.map (pandocCallFor (OUTPUT_TYPES.getD s.outputType "")) := by
  have hh := pandocFoldl_spec env (OUTPUT_TYPES.getD s.outputType "")
    fileList (s, [])
  simp only [call_pandoc]
  rw [if_pos h0]
  rw [hh.1]
  simp

/-- Witness for C9 at target format `docx` (index 2). -/
theorem C9_witness :
    (call_pandoc envAll { initState with outputType := 2 }
      ["/x/a.md", "/y/b.txt.md"]).2 =
      ["/x/a.md", "/y/b.txt.md"].map
        (pandocCallFor (OUTPUT_TYPES.getD
          ({ initState with outputType := 2 } : AppState).outputType "")) :=
  C9_output_paths envAll { initState with outputType := 2 }
    ["/x/a.md", "/y/b.txt.md"] (by decide) (by decide)

/-! ## Claim C6 -/

/-- C6 counterexample: open a valid project, then invoke `open_project`
again with the dialog dismissed — the open fails (returns `false`) yet the
`Close`/`Convert` entries remain enabled, because the cancelled selection
returns before anything is closed.  So "every failed open leaves or puts
them disabled" is false. -/
theorem C6_counterexample :
    (open_project envFail
      (open_project envAll initState "/x/p.msk").2 "").1 = false ∧
    (open_project envFail
      (open_project envAll initState "/x/p.msk").2 "").2.closeEnabled
      = true ∧
    (open_project envFail
      (open_project envAll initState "/x/p.msk").2 "").2.convertEnabled
      = true := by
  refine ⟨by decide, by decide, by decide⟩

/-- C6 amended: in every reachable state of the session, the `Close` and
`Convert` menu entries are enabled iff a project is open (`prjDir` is
set): they start disabled, every successful `open_project` enables them,
every `close_project` disables them, and an `open_project` that fails
after a nonempty selection disables them — but an open that fails because
the selection is empty (cancelled dialog) leaves the menu and the open
project unchanged. -/
theorem C6_menu_invariant :
    (∀ es : List Event, menuInv (run initState es)) ∧
    (∀ (env : Env) (s : AppState) (fn : String),
      select_project env fn = "" →
        (open_project env s fn).1 = false ∧
        (open_project env s fn).2.closeEnabled = s.closeEnabled ∧
        (open_project env s fn).2.convertEnabled = s.convertEnabled ∧
        (open_project env s fn).2.prjDir = s.prjDir) := by
  constructor
  · exact menuInv_run initState menuInv_initState
  · intro env s fn hsel
    rw [open_project_empty env s fn hsel]
    exact ⟨rfl, rfl, rfl, rfl⟩

/-- Witness for C6 at a concrete event list and a concrete cancelled open. -/
theorem C6_witness :
    menuInv (run initState [Event.evClose, Event.evOpen envAll "/x/p.msk"]) ∧
    (open_project envFail initState "").2.closeEnabled
      = initState.closeEnabled :=
  ⟨C6_menu_invariant.1 [Event.evClose, Event.evOpen envAll "/x/p.msk"],
   (C6_menu_invariant.2 envFail initState "" rfl).2.1⟩

/-! ## Claim C7 -/

/-- C7: whenever `open_project` runs with no usable `fileName` argument and
the user dismisses the file-selection dialog, `select_project` returns
`""`, `open_project` returns `false`, and no status report is produced
(the ghost report trace is unchanged; the only display action is
`restore_status`, which re-renders the already stored status text). -/
theorem C7_dialog_dismissed (env : Env) (s : AppState) (fn : String)
    (hdlg : env.dialog = "")
    (hfn : fn = "" ∨ env.isfile fn = false) :
    select_project env fn = "" ∧
    (open_project env s fn).1 = false ∧
    (open_project env s fn).2.reports = s.reports ∧
    (open_project env s fn).2.statusText = s.statusText := by
  have hsel : select_project env fn = "" := by
    unfold select_project
    rw [if_pos hfn, hdlg]
    simp
  refine ⟨hsel, ?_, ?_, ?_⟩ <;> rw [open_project_empty env s fn hsel]
  · rfl
  · rfl

/-- Witness for C7 with the dialog dismissed. -/
theorem C7_witness :
    select_project envFail "" = "" ∧
    (open_project envFail initState "").1 = false ∧
    (open_project envFail initState "").2.reports = initState.reports ∧
    (open_project envFail initState "").2.statusText
      = initState.statusText :=
  C7_dialog_dismissed envFail initState "" rfl (Or.inl rfl)

/-! ## Claim C8 -/

/-- C8 counterexample: with an error message on display, opening a project
whose companion directory is missing returns `false` but changes the
status display — `open_project` begins with `restore_status()`, which
replaces the rendered error with the stored status text in neutral
styling.  So "the status display is unchanged by the call" is false. -/
theorem C8_counterexample :
    (open_project envNoDir (set_info_how "!err" initState) "p.msk").1
      = false ∧
    (open_project envNoDir (set_info_how "!err" initState) "p.msk").2.statusBar
      ≠ (set_info_how "!err" initState).statusBar := by
  refine ⟨by decide, by decide⟩

/-- C8 amended: when `open_project` is invoked and the selected file's
companion directory is missing, it returns `false`, leaves `prjDir`
unset, and (assuming the menu-state invariant held before the call) the
`Close`/`Convert` entries end up disabled; the status display is not in
general unchanged — it ends re-rendered with neutral styling, showing the
previously stored status text (or cleared when a previously open project
was closed on the way). -/
theorem C8_missing_companion (env : Env) (s : AppState) (fn : String)
    (hm : menuInv s)
    (hsel : select_project env fn ≠ "")
    (hdir : env.isdir (companionDir (select_project env fn)) = false) :
    (open_project env s fn).1 = false ∧
    (open_project env s fn).2.closeEnabled = false ∧
    (open_project env s fn).2.convertEnabled = false ∧
    (open_project env s fn).2.prjDir = none ∧
    (open_project env s fn).2.statusBar =
      { text := if s.prjDir.isSome then "" else s.statusText,
        bg := Color.defaultBg, fg := Color.black } := by
  rw [open_project_fail env s fn hsel hdir]
  by_cases hp : s.prjDir.isSome
  · simp [hp, close_project, disable_menu, show_path, show_status,
      restore_status]
  · have hp' : s.prjDir.isSome = false := by simpa using hp
    simp [hp', restore_status, show_status]
    exact ⟨hm.1.trans hp', hm.2.trans hp'⟩

/-- Witness for C8 in an environment with no companion directory. -/
theorem C8_witness :
    (open_project envNoDir initState "p.msk").1 = false ∧
    (open_project envNoDir initState "p.msk").2.closeEnabled = false ∧
    (open_project envNoDir initState "p.msk").2.convertEnabled = false ∧
    (open_project envNoDir initState "p.msk").2.prjDir = none ∧
    (open_project envNoDir initState "p.msk").2.statusBar =
      { text := if initState.prjDir.isSome then "" else initState.statusText,
        bg := Color.defaultBg, fg := Color.black } :=
  C8_missing_companion envNoDir initState "p.msk" menuInv_initState
    (by decide) rfl

/-! ## Claim C10 -/

/-- C10: a failed open is not atomic with respect to the previously open
project — if `open_project` runs while a project is open and the selected
file's companion directory does not exist, it returns `false` but the
previous project is already closed: `prjDir` is `none`, the path bar is
cleared, and `Close`/`Convert` are disabled. -/
theorem C10_failed_open_not_atomic (env : Env) (s : AppState)
    (fn d : String) (hopen : s.prjDir = some d)
    (hsel : select_project env fn ≠ "")
    (hdir : env.isdir (companionDir (select_project env fn)) = false) :
    (open_project env s fn).1 = false ∧
    (open_project env s fn).2.prjDir = none ∧
    (open_project env s fn).2.pathBarText = "" ∧
    (open_project env s fn).2.closeEnabled = false ∧
    (open_project env s fn).2.convertEnabled = false := by
  rw [open_project_fail env s fn hsel hdir]
  have hp : s.prjDir.isSome = true := by rw [hopen]; rfl
  simp [hp, close_project, disable_menu, show_path, show_status,
    restore_status]

/-- A concrete state with a project `"p"` open and the menu enabled. -/
def stOpen : AppState :=
  { initState with
    prjDir := some "p", closeEnabled := true, convertEnabled := true }

/-- Witness for C10: a project is open, then an open with a missing
companion directory fails. -/
theorem C10_witness :
    (open_project envNoDir stOpen "q.msk").1 = false ∧
    (open_project envNoDir stOpen "q.msk").2.prjDir = none ∧
    (open_project envNoDir stOpen "q.msk").2.pathBarText = "" ∧
    (open_project envNoDir stOpen "q.msk").2.closeEnabled = false ∧
    (open_project envNoDir stOpen "q.msk").2.convertEnabled = false :=
  C10_failed_open_not_atomic envNoDir stOpen "q.msk" "p" rfl
    (by decide) rfl
